/-
Verification of the procedural visual-effects core of the javascript-demo
repository: the CPU particle integrator (compute tab and particles tab of
the WebGPU/3D page), the FluidRenderer of the fluid-motion demo
(shader compilation/linking, render loop, per-frame scheduling), and the
parameter handling (glassmorphism control state, PBRMaterialConfig,
GPUComputeParams).

Numeric state is modelled over ℚ: the JavaScript source performs double
arithmetic and stores into Float32Array; the literals involved in the
verified statements (-0.8, -0.9, 0.001, bounds 10/12/15) are modelled by
the exact rationals the source text denotes.
-/

import Mathlib

namespace JsDemo

/-! ## Compute-tab particle integrator (`initComputeDemo`, animate loop)

The simulation loop reads, per particle (stride-3 index `i` into the flat
`positions`/`velocities` Float32Arrays):

    vel[i+1] += gravity * simSpeed;
    pos[i]   += vel[i]   * simSpeed;
    pos[i+1] += vel[i+1] * simSpeed;
    pos[i+2] += vel[i+2] * simSpeed;
    if (Math.abs(pos[i]) > bounds) { pos[i] = Math.sign(pos[i]) * bounds; vel[i] *= -0.8; }
    if (pos[i+1] < -bounds)        { pos[i+1] = -bounds; vel[i+1] *= -0.8; }
    if (pos[i+1] > bounds)         { pos[i+1] =  bounds; vel[i+1] *= -0.8; }
    if (Math.abs(pos[i+2]) > bounds) { pos[i+2] = Math.sign(pos[i+2]) * bounds; vel[i+2] *= -0.8; }
-/

/-- One 3-component vector (one particle's position or velocity triple). -/
structure Vec3 where
  x : ℚ
  y : ℚ
  z : ℚ
deriving DecidableEq, Repr

/-- JavaScript `Math.sign` on the modelled rationals. -/
def jsSign (q : ℚ) : ℚ :=
  if 0 < q then 1 else if q < 0 then -1 else 0

/-- The loop body of the compute-tab simulation for one particle,
translated line by line from `initComputeDemo`'s `animate` (each `if`
appears once per mutated array cell). `-0.8` is the rational `-4/5`. -/
def stepBody (gravity simSpeed bounds : ℚ) (p v : Vec3) : Vec3 × Vec3 :=
  let vy0 := v.y + gravity * simSpeed
  let px0 := p.x + v.x * simSpeed
  let py0 := p.y + vy0 * simSpeed
  let pz0 := p.z + v.z * simSpeed
  let px1 := if |px0| > bounds then jsSign px0 * bounds else px0
  let vx1 := if |px0| > bounds then v.x * (-4/5) else v.x
  let py1 := if py0 < -bounds then -bounds else py0
  let vy1 := if py0 < -bounds then vy0 * (-4/5) else vy0
  let py2 := if py1 > bounds then bounds else py1
  let vy2 := if py1 > bounds then vy1 * (-4/5) else vy1
  let pz1 := if |pz0| > bounds then jsSign pz0 * bounds else pz0
  let vz1 := if |pz0| > bounds then v.z * (-4/5) else v.z
  (⟨px1, py2, pz1⟩, ⟨vx1, vy2, vz1⟩)

/-- The whole `for (let i = 0; i < pos.length; i += 3)` pass over the flat
position/velocity arrays. The two arrays always have the same length `3n`
(they are allocated together, see `recreateComputeArrays`); any ragged
tail is returned unchanged. -/
def stepArrays (gravity simSpeed bounds : ℚ) : List ℚ → List ℚ → List ℚ × List ℚ
  | px :: py :: pz :: ps, vx :: vy :: vz :: vs =>
      let r := stepBody gravity simSpeed bounds ⟨px, py, pz⟩ ⟨vx, vy, vz⟩
      let rest := stepArrays gravity simSpeed bounds ps vs
      (r.1.x :: r.1.y :: r.1.z :: rest.1, r.2.x :: r.2.y :: r.2.z :: rest.2)
  | ps, vs => (ps, vs)

/-- A whole simulation run: fold `stepArrays` over a list of
`(simSpeed, gravity, bounds)` arguments. -/
def runSim (steps : List (ℚ × ℚ × ℚ)) (ps vs : List ℚ) : List ℚ × List ℚ :=
  steps.foldl (fun st a => stepArrays a.2.1 a.1 a.2.2 st.1 st.2) (ps, vs)

/-! Spec-side rendering of the step rule, used to compare against
`stepBody` for the C1 refinement: per axis, if the updated coordinate's
absolute value exceeds `bounds`, clamp it to `±bounds` (matching sign) and
multiply that axis's velocity by `-0.8`. -/

/-- The spec's per-axis reflection rule. -/
def specAxis (bounds pos vel : ℚ) : ℚ × ℚ :=
  if |pos| > bounds then ((if 0 < pos then bounds else -bounds), vel * (-4/5))
  else (pos, vel)

/-- The spec's step rule for one particle: gravity into the y-velocity
first, then advance every position coordinate by its (post-gravity)
velocity times `dtScale`, then apply the reflection rule on each axis. -/
def specStepBody (gravity dtScale bounds : ℚ) (p v : Vec3) : Vec3 × Vec3 :=
  let v1 : Vec3 := ⟨v.x, v.y + gravity * dtScale, v.z⟩
  let p1 : Vec3 := ⟨p.x + v1.x * dtScale, p.y + v1.y * dtScale, p.z + v1.z * dtScale⟩
  let ax := specAxis bounds p1.x v1.x
  let ay := specAxis bounds p1.y v1.y
  let az := specAxis bounds p1.z v1.z
  (⟨ax.1, ay.1, az.1⟩, ⟨ax.2, ay.2, az.2⟩)

/-! ## Particle allocation (`createParticles` of `initParticlesDemo` and the
`compute-count` listener of `initComputeDemo`)

Both allocate `new Float32Array(particleCount * 3)` for positions,
velocities and colors and fill every slot in a single
`for (i = 0; i < particleCount * 3; i += 3)` loop. The filled values come
from `Math.random()`-derived expressions (spherical/cube distributions,
HSL colors); they are abstracted here as given value streams, since the
verified claims about these functions concern only the array lengths. -/

/-- The three parallel arrays of a particle system. -/
structure ParticleArrays where
  positions : List ℚ
  velocities : List ℚ
  colors : List ℚ
deriving DecidableEq, Repr

/-- `createParticles` of the particles tab: three fresh `Float32Array`s of
length `particleCount * 3`, every slot written by the fill loop
(`posVal`, `velVal`, `colVal` abstract the random-derived contents). -/
def createParticles (particleCount : ℕ) (posVal velVal colVal : ℕ → ℚ) : ParticleArrays :=
  { positions := (List.range (particleCount * 3)).map posVal
    velocities := (List.range (particleCount * 3)).map velVal
    colors := (List.range (particleCount * 3)).map colVal }

/-- The compute-tab `compute-count` listener's recreation of the particle
system: `newPositions`/`newVelocities`/`newColors`, each
`new Float32Array(particleCount * 3)` and fully written by its loop. -/
def recreateComputeArrays (particleCount : ℕ) (posVal velVal colVal : ℕ → ℚ) : ParticleArrays :=
  { positions := (List.range (particleCount * 3)).map posVal
    velocities := (List.range (particleCount * 3)).map velVal
    colors := (List.range (particleCount * 3)).map colVal }

/-! ## Particles-tab animation loop (`initParticlesDemo`, animate)

Per flat array cell (the loop strides by 3 but the three axis bodies are
identical, so the per-cell rule is uniform):

    positions[i] += velocities[i] * particleSpeed;
    const limit = 12;
    if (Math.abs(positions[i]) > limit) positions[i] *= -0.9;

The velocities array is never written in this loop. -/

/-- One cell of the particles-tab update: advance by velocity, then the
"wrap around" rule multiplies the coordinate by `-0.9` when its absolute
value exceeds 12. -/
def animAxis (particleSpeed pos vel : ℚ) : ℚ :=
  let u := pos + vel * particleSpeed
  if |u| > 12 then u * (-9/10) else u

/-- The particles-tab position pass over the flat arrays (velocities are
read, never written; arrays have equal length `3n` by construction). -/
def animPositions (particleSpeed : ℚ) : List ℚ → List ℚ → List ℚ
  | p :: ps, v :: vs => animAxis particleSpeed p v :: animPositions particleSpeed ps vs
  | ps, _ => ps

/-- One frame of the particles-tab animation on the particle state:
positions are rewritten in place, the velocities array is untouched. -/
def animStep (particleSpeed : ℚ) (ps vs : List ℚ) : List ℚ × List ℚ :=
  (animPositions particleSpeed ps vs, vs)

/-! ## Glassmorphism control state (`src/demos/glassmorphism.js`)

The `input` listeners write the parsed slider value straight into `state`:

    state.opacity = parseFloat(e.target.value);
    state.blur = parseInt(e.target.value);
    state.saturation = parseInt(e.target.value);
    state.borderOpacity = parseFloat(e.target.value);

No clamping occurs in these listeners; the setter models take the parsed
numeric value. -/

/-- The glassmorphism `state` object. -/
structure GlassState where
  blur : ℚ
  opacity : ℚ
  saturation : ℚ
  borderOpacity : ℚ
deriving DecidableEq, Repr

/-- The initial `state` literal (blur 10, opacity 0.1, saturation 180,
border opacity 0.2). -/
def glassDefaults : GlassState := ⟨10, 1/10, 180, 2/10⟩

/-- The blur `input` listener's state write (`parseInt` result). -/
def setBlur (s : GlassState) (v : ℚ) : GlassState := { s with blur := v }

/-- The opacity `input` listener's state write (`parseFloat` result). -/
def setOpacity (s : GlassState) (v : ℚ) : GlassState := { s with opacity := v }

/-- The saturation `input` listener's state write (`parseInt` result). -/
def setSaturation (s : GlassState) (v : ℚ) : GlassState := { s with saturation := v }

/-- The border-opacity `input` listener's state write. -/
def setBorderOpacity (s : GlassState) (v : ℚ) : GlassState := { s with borderOpacity := v }

/-! ## PBRMaterialConfig (`src/tests/unit/webgpu-3d.test.js`) -/

/-- `PBRMaterialConfig.clamp(value, min, max)` =
`Math.max(min, Math.min(max, value))`. -/
def pbrClamp (value lo hi : ℚ) : ℚ := max lo (min hi value)

/-- The PBR material configuration state. -/
structure PBRMaterialConfig where
  metalness : ℚ
  roughness : ℚ
  color : ℕ
  envMapIntensity : ℚ
deriving DecidableEq, Repr

/-- The `PBRMaterialConfig` constructor: metalness and roughness are
clamped into `[0, 1]` on construction. -/
def mkPBRMaterialConfig (metalness roughness : ℚ) (color : ℕ) (envMapIntensity : ℚ) :
    PBRMaterialConfig :=
  ⟨pbrClamp metalness 0 1, pbrClamp roughness 0 1, color, envMapIntensity⟩

/-- `setMetalness(value)`: stores `clamp(value, 0, 1)`. -/
def setMetalness (c : PBRMaterialConfig) (v : ℚ) : PBRMaterialConfig :=
  { c with metalness := pbrClamp v 0 1 }

/-- `setRoughness(value)`: stores `clamp(value, 0, 1)`. -/
def setRoughness (c : PBRMaterialConfig) (v : ℚ) : PBRMaterialConfig :=
  { c with roughness := pbrClamp v 0 1 }

/-! ## GPUComputeParams (`src/tests/unit/webgpu-3d.test.js`)

    setParticleCount(count) {
      const power = Math.round(Math.log2(count));
      this.particleCount = Math.pow(2, power);
      return this.particleCount;
    }

For a positive integer `count`, `Math.round(Math.log2(count))` is the
unique `k` with `k - 1/2 ≤ log2 count < k + 1/2`, i.e.
`2^(2k-1) ≤ count² < 2^(2k+1)`; that `k` equals
`(⌊log2 count²⌋ + 1) / 2 = (Nat.log 2 (count * count) + 1) / 2`
(`round x = ⌊x + 1/2⌋ = ⌊(⌊2x⌋ + 1) / 2⌋` and `⌊2 log2 c⌋ = ⌊log2 c²⌋`).
The rounding boundary `2^(k+1/2)` is irrational, and its distance in log
scale from any representable integer count dwarfs double-precision
`Math.log2` error, so this integer formulation agrees with the
floating-point source on every positive integer count. -/

/-- `GPUComputeParams.setParticleCount`: rounds to `2^round(log2 count)`,
expressed exactly over integers. -/
def setParticleCount (count : ℕ) : ℕ :=
  2 ^ ((Nat.log 2 (count * count) + 1) / 2)

/-! ## WebGL shader/program construction (`src/demos/glassmorphism.js`,
fluid-motion part: `createShader`, `createProgram`, `FluidRenderer.init`)

The GL context is modelled as a resource-accounting state: allocated
shader/program handles, the reported errors, and whether `linkProgram`
was ever invoked. Whether a compile or the link succeeds is an input
(`COMPILE_STATUS`/`LINK_STATUS` of the driver), as are the info logs. -/

/-- Errors reported via `console.error` on the shader-construction path. -/
inductive GLError where
  | shaderCompile (log : String)
  | programLink (log : String)
  | shadersFailed
  | programFailed
deriving DecidableEq, Repr

/-- The resource-accounting state of the modelled WebGL context. -/
structure GLState where
  nextId : ℕ
  liveShaders : List ℕ
  livePrograms : List ℕ
  errors : List GLError
  linkCalled : Bool
deriving DecidableEq, Repr

/-- `createShader(gl, type, source)`: allocates a shader, compiles, and on
compile failure reports the shader info log, deletes the shader and
returns `null`. -/
def createShader (gl : GLState) (compileOk : Bool) (infoLog : String) :
    Option ℕ × GLState :=
  let id := gl.nextId
  let gl1 : GLState :=
    { gl with nextId := id + 1, liveShaders := gl.liveShaders ++ [id] }
  if compileOk then (some id, gl1)
  else
    (none, { gl1 with errors := gl1.errors ++ [.shaderCompile infoLog],
                      liveShaders := gl1.liveShaders.erase id })

/-- `createProgram(gl, vertexShader, fragmentShader)`: allocates a
program, attaches both shaders, links, and on link failure reports the
program info log and deletes the program — the two shader handles are not
deleted on this path. -/
def createProgram (gl : GLState) (vs fs : ℕ) (linkOk : Bool) (infoLog : String) :
    Option ℕ × GLState :=
  let id := gl.nextId
  let gl1 : GLState :=
    { gl with nextId := id + 1, livePrograms := gl.livePrograms ++ [id],
              linkCalled := true }
  if linkOk then (some id, gl1)
  else
    (none, { gl1 with errors := gl1.errors ++ [.programLink infoLog],
                      livePrograms := gl1.livePrograms.erase id })

/-- The shader/program part of `FluidRenderer.init()` on a fresh context:
compile both stages; if either returned `null`, report
"Failed to create shaders" and stop without linking; otherwise link, and
if that returned `null`, report "Failed to create program". Returns the
final context state and the program handle (if any). -/
def initProgram (okV okF linkOk : Bool) (logV logF logL : String) :
    GLState × Option ℕ :=
  let gl0 : GLState := ⟨0, [], [], [], false⟩
  let rv := createShader gl0 okV logV
  let rf := createShader rv.2 okF logF
  match rv.1, rf.1 with
  | some v, some f =>
      let rp := createProgram rf.2 v f linkOk logL
      match rp.1 with
      | some p => (rp.2, some p)
      | none => ({ rp.2 with errors := rp.2.errors ++ [.programFailed] }, none)
  | _, _ => ({ rf.2 with errors := rf.2.errors ++ [.shadersFailed] }, none)

/-! ## FluidRenderer rendering and scheduling
(`src/demos/glassmorphism.js`, fluid-motion part)

`render(deltaTime)` guards on a missing program, then advances
`this.time += deltaTime * 0.001` and issues the GL calls in source order.
The `requestAnimationFrame` machinery of `start`/`stop`/the loop closure
is modelled by `pending`, the number of outstanding frame callbacks the
host holds for this renderer (the stored `animationFrame` handle). -/

/-- One recorded GL call of `render`. -/
inductive GLCmd where
  | clearColor (r g b a : ℚ)
  | clear
  | useProgram
  | uniform1f (name : String) (value : ℚ)
  | uniform2f (name : String) (v1 v2 : ℚ)
  | bindBuffer
  | enableVertexAttribArray
  | vertexAttribPointer
  | drawArrays (mode : String) (first count : ℕ)
deriving DecidableEq, Repr

/-- The `FluidRenderer` state: program presence, time accumulator, the
`params` fields, mouse, canvas backing-store size, and the scheduling
fields (`isRunning` plus the outstanding-frame-callback count). -/
structure FluidRenderer where
  program : Bool
  time : ℚ
  viscosity : ℚ
  distortion : ℚ
  speed : ℚ
  colorShift : ℚ
  mouseX : ℚ
  mouseY : ℚ
  width : ℚ
  height : ℚ
  isRunning : Bool
  pending : ℕ
deriving DecidableEq, Repr

/-- A renderer as the constructor leaves it when WebGL and the program are
available: time 0, not running, no scheduled callback. -/
def mkFluidRenderer (program : Bool) (viscosity distortion speed colorShift w h : ℚ) :
    FluidRenderer :=
  { program := program, time := 0, viscosity := viscosity, distortion := distortion,
    speed := speed, colorShift := colorShift, mouseX := 0, mouseY := 0,
    width := w, height := h, isRunning := false, pending := 0 }

/-- `FluidRenderer.render(deltaTime)`: returns without any state change or
GL call when no program exists; otherwise advances
`time += deltaTime * 0.001` and issues the source-order GL call sequence,
ending in the single full-screen-quad `drawArrays(TRIANGLES, 0, 6)`. -/
def render (s : FluidRenderer) (deltaTime : ℚ) : FluidRenderer × List GLCmd :=
  if !s.program then (s, [])
  else
    let s1 := { s with time := s.time + deltaTime * (1/1000) }
    (s1,
      [ .clearColor 0 0 0 0, .clear, .useProgram,
        .uniform1f "u_time" s1.time,
        .uniform2f "u_resolution" s1.width s1.height,
        .uniform2f "u_mouse" s1.mouseX s1.mouseY,
        .uniform1f "u_viscosity" s1.viscosity,
        .uniform1f "u_distortion" s1.distortion,
        .uniform1f "u_speed" s1.speed,
        .uniform1f "u_colorShift" s1.colorShift,
        .bindBuffer, .enableVertexAttribArray, .vertexAttribPointer,
        .drawArrays "TRIANGLES" 0 6 ])

/-- `FluidRenderer.start()`: a no-op when `isRunning` already holds;
otherwise sets `isRunning` and schedules one frame callback
(`this.animationFrame = requestAnimationFrame(loop)`). -/
def startFR (s : FluidRenderer) : FluidRenderer :=
  if s.isRunning then s
  else { s with isRunning := true, pending := s.pending + 1 }

/-- `FluidRenderer.stop()`: clears `isRunning` and cancels the pending
callback (`cancelAnimationFrame`), if any. -/
def stopFR (s : FluidRenderer) : FluidRenderer :=
  { s with isRunning := false, pending := 0 }

/-- The host firing one scheduled frame callback (the `loop` closure):
nothing happens when no callback is outstanding; the fired callback
returns immediately if `isRunning` was cleared, otherwise renders and
reschedules itself exactly once. -/
def tickFR (s : FluidRenderer) (delta : ℚ) : FluidRenderer :=
  if s.pending = 0 then s
  else
    let s0 := { s with pending := s.pending - 1 }
    if !s0.isRunning then s0
    else { (render s0 delta).1 with pending := s0.pending + 1 }

/-- `FluidRenderer.updateParams(params)` as invoked by `initControls`
(`Object.assign` of the four numeric fields). -/
def updateParamsFR (s : FluidRenderer) (viscosity distortion speed colorShift : ℚ) :
    FluidRenderer :=
  { s with viscosity := viscosity, distortion := distortion,
           speed := speed, colorShift := colorShift }

/-- The externally triggerable operations on one renderer. -/
inductive FROp where
  | start
  | stop
  | tick (delta : ℚ)
  | updateParams (viscosity distortion speed colorShift : ℚ)
deriving DecidableEq, Repr

/-- Apply one operation. -/
def applyFROp (s : FluidRenderer) : FROp → FluidRenderer
  | .start => startFR s
  | .stop => stopFR s
  | .tick d => tickFR s d
  | .updateParams v d sp c => updateParamsFR s v d sp c

/-- Run a sequence of operations. -/
def runFROps (s : FluidRenderer) (ops : List FROp) : FluidRenderer :=
  ops.foldl applyFROp s

/-- The scheduling invariant: at most one outstanding frame callback, and
none at all when the renderer is not running. -/
def schedInv (s : FluidRenderer) : Prop :=
  s.pending ≤ 1 ∧ (s.isRunning = false → s.pending = 0)

/-! ## Helper lemmas for the integrator equivalence (claim C1) -/

/-- The x/z-axis bounce of `stepBody` (an `abs` test with
`Math.sign`-based clamping) agrees with the spec's per-axis rule,
position component. -/
lemma axisXZ_pos (b q w : ℚ) (hb : 0 ≤ b) :
    (if |q| > b then jsSign q * b else q) = (specAxis b q w).1 := by
  simp only [specAxis, jsSign, gt_iff_lt]
  by_cases h : b < |q|
  · rcases lt_trichotomy 0 q with hq | hq | hq
    · simp [h, hq, one_mul]
    · exfalso; rw [← hq, abs_zero] at h; linarith
    · simp [h, hq, not_lt_of_lt hq, neg_one_mul]
  · simp [h]

/-- The x/z-axis bounce, velocity component. -/
lemma axisXZ_vel (b q w : ℚ) (hb : 0 ≤ b) :
    (if |q| > b then w * (-4/5) else w) = (specAxis b q w).2 := by
  simp only [specAxis, gt_iff_lt]
  by_cases h : b < |q| <;> simp [h]

/-- The y-axis bounce of `stepBody` (two sequential one-sided tests)
agrees with the spec's per-axis rule, position component. -/
lemma axisY_pos (b q w : ℚ) (hb : 0 ≤ b) :
    (if (if q < -b then -b else q) > b then b else (if q < -b then -b else q))
      = (specAxis b q w).1 := by
  simp only [specAxis, gt_iff_lt, lt_abs]
  by_cases hlo : q < -b
  · have h1 : ¬ b < -b := by linarith
    have h2 : b < -q := by linarith
    have h3 : ¬ 0 < q := by intro h; linarith
    simp [hlo, h1, h2, h3]
  · by_cases hhi : b < q
    · have h3 : 0 < q := by linarith
      simp [hlo, hhi, h3]
    · have h4 : ¬ b < -q := by linarith [not_lt.mp hlo]
      simp [hlo, hhi, h4]

/-- The y-axis bounce, velocity component. -/
lemma axisY_vel (b q w : ℚ) (hb : 0 ≤ b) :
    (if (if q < -b then -b else q) > b then (if q < -b then w * (-4/5) else w) * (-4/5)
       else (if q < -b then w * (-4/5) else w))
      = (specAxis b q w).2 := by
  simp only [specAxis, gt_iff_lt, lt_abs]
  by_cases hlo : q < -b
  · have h1 : ¬ b < -b := by linarith
    have h2 : b < -q := by linarith
    simp [hlo, h1, h2]
  · by_cases hhi : b < q
    · simp [hlo, hhi]
    · have h4 : ¬ b < -q := by linarith [not_lt.mp hlo]
      simp [hlo, hhi, h4]

/-! ## Claim theorems -/

/-- C1: one `step(dtScale, gravity, bounds)` call first adds
`gravity * dtScale` to the y-velocity, then advances every position
coordinate by its velocity times `dtScale`, then clamps any coordinate
exceeding `bounds` in absolute value to `±bounds` while scaling that
axis's velocity by `-0.8` — i.e. the loop body equals the spec-side step
rule (for the physical case of a nonnegative bound); in particular a
particle with `x = 9`, `vx = 20` after one `step(1, 0, 10)` has `x = 10`
and `vx = -16`. -/
theorem step_matches_spec_reflection (gravity simSpeed bounds : ℚ) (hb : 0 ≤ bounds)
    (p v : Vec3) :
    stepBody gravity simSpeed bounds p v = specStepBody gravity simSpeed bounds p v ∧
    stepBody 0 1 10 ⟨9, 0, 0⟩ ⟨20, 0, 0⟩ = (⟨10, 0, 0⟩, ⟨-16, 0, 0⟩) := by
  constructor
  · simp only [stepBody, specStepBody, Prod.mk.injEq, Vec3.mk.injEq]
    refine ⟨⟨?_, ?_, ?_⟩, ?_, ?_, ?_⟩
    · exact axisXZ_pos bounds (p.x + v.x * simSpeed) v.x hb
    · exact axisY_pos bounds (p.y + (v.y + gravity * simSpeed) * simSpeed)
        (v.y + gravity * simSpeed) hb
    · exact axisXZ_pos bounds (p.z + v.z * simSpeed) v.z hb
    · exact axisXZ_vel bounds (p.x + v.x * simSpeed) v.x hb
    · exact axisY_vel bounds (p.y + (v.y + gravity * simSpeed) * simSpeed)
        (v.y + gravity * simSpeed) hb
    · exact axisXZ_vel bounds (p.z + v.z * simSpeed) v.z hb
  · norm_num [stepBody, jsSign]

/-- C1 witness: the theorem applied at the concrete boundary-reflection
example of the spec. -/
theorem step_matches_spec_reflection_witness :
    stepBody 0 1 10 ⟨9, 0, 0⟩ ⟨20, 0, 0⟩ = specStepBody 0 1 10 ⟨9, 0, 0⟩ ⟨20, 0, 0⟩ ∧
    stepBody 0 1 10 ⟨9, 0, 0⟩ ⟨20, 0, 0⟩ = (⟨10, 0, 0⟩, ⟨-16, 0, 0⟩) :=
  step_matches_spec_reflection 0 1 10 (by norm_num) ⟨9, 0, 0⟩ ⟨20, 0, 0⟩

/-- The simulation pass preserves the lengths of both arrays. -/
lemma stepArrays_length (g s b : ℚ) :
    ∀ ps vs : List ℚ, (stepArrays g s b ps vs).1.length = ps.length ∧
      (stepArrays g s b ps vs).2.length = vs.length
  | px :: py :: pz :: ps, vx :: vy :: vz :: vs => by
      have ih := stepArrays_length g s b ps vs
      simp [stepArrays, ih.1, ih.2]
  | [], vs => by simp [stepArrays]
  | [px], vs => by simp [stepArrays]
  | [px, py], vs => by simp [stepArrays]
  | px :: py :: pz :: ps, [] => by simp [stepArrays]
  | px :: py :: pz :: ps, [vx] => by simp [stepArrays]
  | px :: py :: pz :: ps, [vx, vy] => by simp [stepArrays]

/-- The particles-tab position pass preserves the position-array length. -/
lemma animPositions_length (sp : ℚ) :
    ∀ ps vs : List ℚ, (animPositions sp ps vs).length = ps.length
  | p :: ps, v :: vs => by simp [animPositions, animPositions_length sp ps vs]
  | [], vs => by simp [animPositions]
  | p :: ps, [] => by simp [animPositions]

/-- C7: `createParticles`/the compute-tab recreation always yield three
arrays of length exactly `3 × count`, and every integrator operation
(compute-tab step, particles-tab animation frame) preserves the array
lengths, so the equal-length invariant holds after every operation. -/
theorem particle_arrays_length_invariant :
    (∀ (n : ℕ) (f g h : ℕ → ℚ),
        (createParticles n f g h).positions.length = 3 * n ∧
        (createParticles n f g h).velocities.length = 3 * n ∧
        (createParticles n f g h).colors.length = 3 * n) ∧
    (∀ (n : ℕ) (f g h : ℕ → ℚ),
        (recreateComputeArrays n f g h).positions.length = 3 * n ∧
        (recreateComputeArrays n f g h).velocities.length = 3 * n ∧
        (recreateComputeArrays n f g h).colors.length = 3 * n) ∧
    (∀ (g s b : ℚ) (ps vs : List ℚ),
        (stepArrays g s b ps vs).1.length = ps.length ∧
        (stepArrays g s b ps vs).2.length = vs.length) ∧
    (∀ (sp : ℚ) (ps vs : List ℚ),
        (animStep sp ps vs).1.length = ps.length ∧
        (animStep sp ps vs).2.length = vs.length) := by
  refine ⟨?_, ?_, ?_, ?_⟩
  · intro n f g h
    simp [createParticles, Nat.mul_comm]
  · intro n f g h
    simp [recreateComputeArrays, Nat.mul_comm]
  · intro g s b ps vs
    exact stepArrays_length g s b ps vs
  · intro sp ps vs
    exact ⟨animPositions_length sp ps vs, rfl⟩

/-- C8: the integrator is deterministic — two runs from bit-identical
position/velocity arrays with the same `(dtScale, gravity, bounds)`
sequence agree after every step (every prefix of the argument list). -/
theorem runSim_deterministic (steps : List (ℚ × ℚ × ℚ))
    (ps₁ vs₁ ps₂ vs₂ : List ℚ) (hp : ps₁ = ps₂) (hv : vs₁ = vs₂) (k : ℕ) :
    runSim (steps.take k) ps₁ vs₁ = runSim (steps.take k) ps₂ vs₂ := by
  subst hp; subst hv; rfl

/-- C8 witness: a concrete two-run agreement. -/
theorem runSim_deterministic_witness :
    runSim ([((1 : ℚ), (0 : ℚ), (10 : ℚ))].take 1) [9, 0, 0] [20, 0, 0] =
      runSim ([((1 : ℚ), (0 : ℚ), (10 : ℚ))].take 1) [9, 0, 0] [20, 0, 0] :=
  runSim_deterministic [((1 : ℚ), (0 : ℚ), (10 : ℚ))] [9, 0, 0] [20, 0, 0]
    [9, 0, 0] [20, 0, 0] rfl rfl 1

/-- C9: in the particles-tab animation loop, a position coordinate whose
absolute value exceeds 12 after the per-frame update is multiplied by
`-0.9` (no clamping to the bound), and the velocities array is left
completely unchanged by the frame; concretely, an updated coordinate of
20 becomes `-18`, not `±12`. -/
theorem particles_tab_wraparound :
    (∀ (sp : ℚ) (ps vs : List ℚ), (animStep sp ps vs).2 = vs) ∧
    (∀ (sp p v : ℚ), |p + v * sp| > 12 → animAxis sp p v = (p + v * sp) * (-9/10)) ∧
    (animAxis 1 19 1 = -18 ∧ (-18 : ℚ) ≠ 12 ∧ (-18 : ℚ) ≠ -12) := by
  refine ⟨fun sp ps vs => rfl, ?_, by norm_num [animAxis]⟩
  intro sp p v h
  simp [animAxis, h]

/-- C9 witness: the wrap rule applied at a concrete out-of-bounds update. -/
theorem particles_tab_wraparound_witness :
    animAxis 1 19 1 = ((19 : ℚ) + 1 * 1) * (-9/10) :=
  particles_tab_wraparound.2.1 1 19 1 (by norm_num)

/-- C2 counterexample: on a running surface with `speed = 2`, one
`render(1000)` call advances the time accumulator to `1`
(`deltaMs * 0.001`), not to `time + deltaMs * speed = 2000` as claimed. -/
theorem render_time_not_speed_scaled :
    ¬ ((render (⟨true, 0, 1/2, 3/10, 2, 1/2, 0, 0, 800, 600, true, 1⟩ : FluidRenderer)
          1000).1.time = (0 : ℚ) + 1000 * 2) := by
  norm_num [render]

/-- C2 (amended): on a surface whose program exists, `render(deltaMs)`
advances the accumulator by exactly `deltaMs * 0.001` (milliseconds to
seconds, independent of `speed`), then writes the current parameters —
`speed` among them as the `u_speed` uniform, which is where speed scaling
is applied — the accumulated time, the resolution and the mouse to the
uniforms, and issues exactly one full-screen-quad draw call. -/
theorem render_advances_time_and_draws_once (s : FluidRenderer) (d : ℚ)
    (h : s.program = true) :
    (render s d).1 = { s with time := s.time + d * (1/1000) } ∧
    (render s d).2 =
      [ .clearColor 0 0 0 0, .clear, .useProgram,
        .uniform1f "u_time" (s.time + d * (1/1000)),
        .uniform2f "u_resolution" s.width s.height,
        .uniform2f "u_mouse" s.mouseX s.mouseY,
        .uniform1f "u_viscosity" s.viscosity,
        .uniform1f "u_distortion" s.distortion,
        .uniform1f "u_speed" s.speed,
        .uniform1f "u_colorShift" s.colorShift,
        .bindBuffer, .enableVertexAttribArray, .vertexAttribPointer,
        .drawArrays "TRIANGLES" 0 6 ] ∧
    ((render s d).2.countP fun c =>
        match c with | GLCmd.drawArrays _ _ _ => true | _ => false) = 1 := by
  refine ⟨?_, ?_, ?_⟩ <;> simp [render, h, List.countP_cons]

/-- C2 witness: the amended render contract at a concrete running
surface. -/
theorem render_advances_time_and_draws_once_witness :
    (render (⟨true, 0, 1/2, 3/10, 2, 1/2, 0, 0, 800, 600, true, 1⟩ : FluidRenderer)
        1000).1 =
      { (⟨true, 0, 1/2, 3/10, 2, 1/2, 0, 0, 800, 600, true, 1⟩ : FluidRenderer) with
          time := (0 : ℚ) + 1000 * (1/1000) } ∧
    (render (⟨true, 0, 1/2, 3/10, 2, 1/2, 0, 0, 800, 600, true, 1⟩ : FluidRenderer)
        1000).2 =
      [ .clearColor 0 0 0 0, .clear, .useProgram,
        .uniform1f "u_time" ((0 : ℚ) + 1000 * (1/1000)),
        .uniform2f "u_resolution" 800 600,
        .uniform2f "u_mouse" 0 0,
        .uniform1f "u_viscosity" (1/2),
        .uniform1f "u_distortion" (3/10),
        .uniform1f "u_speed" 2,
        .uniform1f "u_colorShift" (1/2),
        .bindBuffer, .enableVertexAttribArray, .vertexAttribPointer,
        .drawArrays "TRIANGLES" 0 6 ] ∧
    ((render (⟨true, 0, 1/2, 3/10, 2, 1/2, 0, 0, 800, 600, true, 1⟩ : FluidRenderer)
        1000).2.countP fun c =>
        match c with | GLCmd.drawArrays _ _ _ => true | _ => false) = 1 :=
  render_advances_time_and_draws_once
    (⟨true, 0, 1/2, 3/10, 2, 1/2, 0, 0, 800, 600, true, 1⟩ : FluidRenderer) 1000 rfl

/-- C10: on a surface whose initialization failed (no program), every
`render(deltaTime)` call returns with the state completely unchanged and
performs no GL call — the missing-program guard runs before the time
accumulator is advanced or any GPU command is issued. -/
theorem render_noop_without_program (s : FluidRenderer) (d : ℚ)
    (h : s.program = false) :
    render s d = (s, []) := by
  simp [render, h]

/-- C10 witness: a failed-initialization surface is untouched by render. -/
theorem render_noop_without_program_witness :
    render (⟨false, 7, 1/2, 3/10, 1, 1/2, 3, 4, 800, 600, false, 0⟩ : FluidRenderer) 16 =
      ((⟨false, 7, 1/2, 3/10, 1, 1/2, 3, 4, 800, 600, false, 0⟩ : FluidRenderer), []) :=
  render_noop_without_program _ 16 rfl

/-- `render` never touches `isRunning`. -/
lemma render_isRunning (s : FluidRenderer) (d : ℚ) :
    (render s d).1.isRunning = s.isRunning := by
  by_cases h : s.program <;> simp [render, h]

/-- `render` never touches `pending`. -/
lemma render_pending (s : FluidRenderer) (d : ℚ) :
    (render s d).1.pending = s.pending := by
  by_cases h : s.program <;> simp [render, h]

/-- Every operation preserves the scheduling invariant. -/
lemma applyFROp_schedInv (s : FluidRenderer) (op : FROp) (h : schedInv s) :
    schedInv (applyFROp s op) := by
  obtain ⟨h1, h2⟩ := h
  cases op with
  | start =>
      by_cases hr : s.isRunning
      · simpa [applyFROp, startFR, hr] using ⟨h1, h2⟩
      · have : s.pending = 0 := h2 (by simpa using hr)
        simp [applyFROp, startFR, hr, schedInv, this]
  | stop => simp [applyFROp, stopFR, schedInv]
  | tick d =>
      by_cases hp : s.pending = 0
      · simpa [applyFROp, tickFR, hp] using ⟨h1, h2⟩
      · by_cases hr : s.isRunning
        · constructor
          · simp [applyFROp, tickFR, hp, hr, render_pending]
            omega
          · simp [applyFROp, tickFR, hp, hr, render_isRunning]
        · refine ⟨?_, fun _ => ?_⟩ <;>
            · simp [applyFROp, tickFR, hp, hr]
              omega
  | updateParams a b c e =>
      simpa [applyFROp, updateParamsFR, schedInv] using ⟨h1, h2⟩

/-- The scheduling invariant holds along any operation sequence. -/
lemma runFROps_schedInv (ops : List FROp) (s : FluidRenderer) (h : schedInv s) :
    schedInv (runFROps s ops) := by
  induction ops generalizing s with
  | nil => exact h
  | cons op ops ih => exact ih (applyFROp s op) (applyFROp_schedInv s op h)

/-- C6: `start()` twice without an intervening `stop` equals `start()`
once (the second call is a no-op), and along every operation sequence
from a freshly constructed renderer at most one frame callback is ever
outstanding — there is never a doubled per-frame loop. -/
theorem start_idempotent_single_loop :
    (∀ s : FluidRenderer, startFR (startFR s) = startFR s) ∧
    (∀ (program : Bool) (viscosity distortion speed colorShift w h : ℚ)
        (ops : List FROp),
      (runFROps (mkFluidRenderer program viscosity distortion speed colorShift w h)
          ops).pending ≤ 1) := by
  constructor
  · intro s
    by_cases hr : s.isRunning <;> simp [startFR, hr]
  · intro program viscosity distortion speed colorShift w h ops
    exact (runFROps_schedInv ops _ (by simp [mkFluidRenderer, schedInv])).1

/-- C3 counterexample: with both stages compiling and the link failing,
`linkProgram` was invoked and the program object was deleted, but the two
shader handles (ids 0 and 1) are still allocated — they are not released
on link failure as the claim states. -/
theorem link_failure_leaks_shaders :
    (initProgram true true false "" "" "link failed").1.linkCalled = true ∧
    (initProgram true true false "" "" "link failed").1.livePrograms = [] ∧
    (initProgram true true false "" "" "link failed").1.liveShaders = [0, 1] ∧
    ¬ ((initProgram true true false "" "" "link failed").1.liveShaders = []) := by
  refine ⟨rfl, rfl, rfl, ?_⟩
  intro hcontra
  simp [initProgram, createShader, createProgram] at hcontra

/-- C3 (amended): linking is attempted only when both stages compiled —
a failed stage prevents the link and its compiler log is among the
reported errors — and when linking itself fails only the program object
is released: both shader handles stay allocated. -/
theorem link_only_after_compile (okV okF linkOk : Bool) (logV logF logL : String) :
    (okV = false →
        (initProgram okV okF linkOk logV logF logL).1.linkCalled = false ∧
        GLError.shaderCompile logV ∈ (initProgram okV okF linkOk logV logF logL).1.errors) ∧
    (okF = false →
        (initProgram okV okF linkOk logV logF logL).1.linkCalled = false ∧
        GLError.shaderCompile logF ∈ (initProgram okV okF linkOk logV logF logL).1.errors) ∧
    (okV = true → okF = true → linkOk = false →
        (initProgram okV okF linkOk logV logF logL).1.livePrograms = [] ∧
        (initProgram okV okF linkOk logV logF logL).1.liveShaders = [0, 1] ∧
        GLError.programLink logL ∈ (initProgram okV okF linkOk logV logF logL).1.errors) := by
  cases okV <;> cases okF <;> cases linkOk <;>
    simp [initProgram, createShader, createProgram]

/-- C3 witness: the amended statement at the concrete link-failure run. -/
theorem link_only_after_compile_witness :
    (initProgram true true false "v log" "f log" "l log").1.livePrograms = [] ∧
    (initProgram true true false "v log" "f log" "l log").1.liveShaders = [0, 1] ∧
    GLError.programLink "l log" ∈
      (initProgram true true false "v log" "f log" "l log").1.errors :=
  (link_only_after_compile true true false "v log" "f log" "l log").2.2 rfl rfl rfl

/-- C4 counterexample: the glassmorphism opacity listener stores the raw
parsed value — setting opacity to 5 stores 5 (outside `[0, 1]`), not the
claimed clamped 1. -/
theorem opacity_not_clamped :
    (setOpacity glassDefaults 5).opacity = 5 ∧
    ¬ ((setOpacity glassDefaults 5).opacity ≤ 1) := by
  constructor
  · rfl
  · norm_num [setOpacity, glassDefaults]

/-- C4 (amended): set-then-read stays within the declared range only for
the PBR material fields — `metalness` and `roughness` are clamped into
`[0, 1]` by the constructor and the setters — while the glassmorphism
controls (blur, opacity, saturation, border opacity) store the parsed
raw value unclamped, so e.g. setting opacity to 5 stores 5. -/
theorem param_clamping_pbr_only :
    (∀ (c : PBRMaterialConfig) (v : ℚ),
        0 ≤ (setMetalness c v).metalness ∧ (setMetalness c v).metalness ≤ 1 ∧
        0 ≤ (setRoughness c v).roughness ∧ (setRoughness c v).roughness ≤ 1) ∧
    (∀ (m r env : ℚ) (col : ℕ),
        0 ≤ (mkPBRMaterialConfig m r col env).metalness ∧
        (mkPBRMaterialConfig m r col env).metalness ≤ 1 ∧
        0 ≤ (mkPBRMaterialConfig m r col env).roughness ∧
        (mkPBRMaterialConfig m r col env).roughness ≤ 1) ∧
    (∀ (s : GlassState) (v : ℚ),
        (setOpacity s v).opacity = v ∧ (setBlur s v).blur = v ∧
        (setSaturation s v).saturation = v ∧
        (setBorderOpacity s v).borderOpacity = v) := by
  have hclamp : ∀ v : ℚ, 0 ≤ pbrClamp v 0 1 ∧ pbrClamp v 0 1 ≤ 1 := by
    intro v
    refine ⟨le_max_left 0 _, max_le (by norm_num) (min_le_left 1 v)⟩
  refine ⟨?_, ?_, ?_⟩
  · intro c v
    exact ⟨(hclamp v).1, (hclamp v).2, (hclamp v).1, (hclamp v).2⟩
  · intro m r env col
    exact ⟨(hclamp m).1, (hclamp m).2, (hclamp r).1, (hclamp r).2⟩
  · intro s v
    exact ⟨rfl, rfl, rfl, rfl⟩

/-- C5 counterexample: `setParticleCount(23)` stores 32, although 16 is a
power of two strictly nearer to 23 in absolute distance (7 versus 9) —
the snapping is not to the nearest power of two by absolute distance. -/
theorem particle_count_not_absolute_nearest :
    setParticleCount 23 = 32 ∧ (16 : ℕ) = 2 ^ 4 ∧ 23 - 16 < 32 - 23 := by
  have hlog : Nat.log 2 (23 * 23) = 9 :=
    Nat.log_eq_of_pow_le_of_lt_pow (by norm_num) (by norm_num)
  refine ⟨?_, by norm_num, by norm_num⟩
  rw [setParticleCount, hlog]
  norm_num

/-- C5 (amended): for every positive count, `setParticleCount` stores
`2 ^ round(log2 count)` — the power of two nearest in logarithmic
distance, characterized by `2^(2k-1) ≤ count² < 2^(2k+1)` — which is a
power of two but not always the one nearest in absolute distance. -/
theorem particle_count_log_rounding (count : ℕ) (h : 1 ≤ count) :
    ∃ k : ℕ, setParticleCount count = 2 ^ k ∧
      2 ^ (2 * k - 1) ≤ count * count ∧ count * count < 2 ^ (2 * k + 1) := by
  refine ⟨(Nat.log 2 (count * count) + 1) / 2, rfl, ?_, ?_⟩ <;>
  · have hcc : count * count ≠ 0 := by positivity
    have h1 : 2 ^ Nat.log 2 (count * count) ≤ count * count :=
      Nat.pow_log_le_self 2 hcc
    have h2 : count * count < 2 ^ (Nat.log 2 (count * count) + 1) :=
      Nat.lt_pow_succ_log_self (by norm_num) _
    set m := Nat.log 2 (count * count) with hm
    rcases Nat.even_or_odd m with ⟨j, hj⟩ | ⟨j, hj⟩
    · have hk : (m + 1) / 2 = j := by omega
      rw [hk]
      first
      | calc 2 ^ (2 * j - 1) ≤ 2 ^ m := Nat.pow_le_pow_right (by norm_num) (by omega)
          _ ≤ count * count := h1
      | calc count * count < 2 ^ (m + 1) := h2
          _ ≤ 2 ^ (2 * j + 1) := Nat.pow_le_pow_right (by norm_num) (by omega)
    · have hk : (m + 1) / 2 = j + 1 := by omega
      rw [hk]
      first
      | calc 2 ^ (2 * (j + 1) - 1) ≤ 2 ^ m := Nat.pow_le_pow_right (by norm_num) (by omega)
          _ ≤ count * count := h1
      | calc count * count < 2 ^ (m + 1) := h2
          _ ≤ 2 ^ (2 * (j + 1) + 1) := Nat.pow_le_pow_right (by norm_num) (by omega)

/-- C5 witness: the amended characterization at count 23 (stored 32,
`2^9 ≤ 529 < 2^11`). -/
theorem particle_count_log_rounding_witness :
    1 ≤ 23 ∧ ∃ k : ℕ, setParticleCount 23 = 2 ^ k ∧
      2 ^ (2 * k - 1) ≤ 23 * 23 ∧ 23 * 23 < 2 ^ (2 * k + 1) :=
  ⟨by norm_num, particle_count_log_rounding 23 (by norm_num)⟩

end JsDemo
